import Mathlib

/-!
Shallow embedding of the device-creation wizard of the gns3-gui slice:
`gns3/device_wizard.py` (class `DeviceWizard`) and
`gns3/modules/iou/dialogs/iou_device_wizard.py` (class `IOUDeviceWizard`).

Widget state (radio buttons, combo boxes, line edits, buttons, progress
dialogs) is carried explicitly in records; the Qt slots and methods become
pure state-transition functions.  A Python runtime error (TypeError on
subscripting None, AttributeError on a None method call, StopIteration
from `next` on an empty iterator) is modelled by the `PyErr` type.
-/

/-- A registered remote compute server: a (host, port) pair
(`server.host`, `server.port` in the source). -/
structure RemoteServer where
  host : String
  port : Nat
deriving DecidableEq

/-- The value held by `self._server`: the local server descriptor or a
remote server object.  `none` at the `Option` level models Python `None`. -/
inductive ServerRef where
  | localServer : ServerRef
  | remote : RemoteServer → ServerRef
deriving DecidableEq

/-- A server-reported image record: at least a `filename` field plus opaque
extra metadata fields (`vm` dictionaries in `_getImagesFromServerCallback`). -/
structure ImageEntry where
  filename : String
  metadata : List (String × String)
deriving DecidableEq

/-- Python runtime errors that the embedded code can raise. -/
inductive PyErr where
  | typeError : PyErr
  | attributeError : PyErr
  | stopIteration : PyErr
deriving DecidableEq

/-- `QComboBox.itemData(index)`: the data stored at `index`, or Python
`None` (modelled `none`) when the index is out of range, e.g. `-1` on an
empty or cleared combo box. -/
def comboItemData {α : Type} (items : List α) (index : Int) : Option α :=
  if h : 0 ≤ index ∧ index.toNat < items.length then
    some (items.get ⟨index.toNat, h.2⟩)
  else
    none

/-- Observable UI effects, kept as an event log: progress dialogs shown,
rejected and accepted, and modal `QMessageBox.critical` / `warning` calls. -/
inductive UIEvent where
  | progressShown : Nat → UIEvent
  | progressRejected : Nat → UIEvent
  | progressAccepted : Nat → UIEvent
  | criticalDialog : String → String → UIEvent
deriving DecidableEq

/-- A `QProgressDialog`: its identity and whether the user pressed Cancel
(`wasCanceled`). -/
structure ProgressDialog where
  id : Nat
  canceled : Bool
deriving DecidableEq

/-- The wizard state relevant to the asynchronous image-list fetch:
`self._image_list_progress_dialog`, the registered image combo boxes
(`self._images_combo_boxes`, each a list of (display text, item data)
entries), the HTTP requests issued via `self._server.get` that have not
been answered yet, and the UI event log. -/
structure ImagesWizardState where
  nextId : Nat
  progressDialog : Option ProgressDialog
  pendingRequests : List (Nat × String)
  comboBoxes : List (List (String × ImageEntry))
  events : List UIEvent
deriving DecidableEq

/-- `DeviceWizard.loadImagesList(endpoint)`: reject any current progress
dialog, create and show a fresh cancelable progress dialog, and issue an
asynchronous GET on `endpoint` whose response will be delivered to
`_getImagesFromServerCallback`. -/
def DeviceWizard.loadImagesList (st : ImagesWizardState) (endpoint : String) :
    ImagesWizardState :=
  let st :=
    match st.progressDialog with
    | some d => { st with events := st.events ++ [UIEvent.progressRejected d.id] }
    | none => st
  let d : ProgressDialog := ⟨st.nextId, false⟩
  { st with
    nextId := st.nextId + 1
    progressDialog := some d
    events := st.events ++ [UIEvent.progressShown d.id]
    pendingRequests := st.pendingRequests ++ [(d.id, endpoint)] }

/-- The response handed to `_getImagesFromServerCallback`: a list of image
records on success, or an error payload whose `message` field is kept. -/
inductive FetchResult where
  | ok : List ImageEntry → FetchResult
  | err : String → FetchResult
deriving DecidableEq

/-- `DeviceWizard._getImagesFromServerCallback(result, error)`: read and
clear `self._image_list_progress_dialog`; if the user canceled, return
silently; otherwise accept (dismiss) the dialog; on error show a critical
dialog with the server-supplied message; on success clear every registered
combo box and repopulate it with one entry per record (display text the
record's `filename`, item data the full record).  When the stored dialog
is Python `None`, `progress_dialog.wasCanceled()` raises AttributeError. -/
def DeviceWizard.getImagesFromServerCallback (st : ImagesWizardState)
    (result : FetchResult) : Except PyErr ImagesWizardState :=
  match st.progressDialog with
  | none => Except.error PyErr.attributeError
  | some d =>
    let st := { st with progressDialog := none }
    if d.canceled then
      Except.ok st
    else
      let st := { st with events := st.events ++ [UIEvent.progressAccepted d.id] }
      match result with
      | FetchResult.err msg =>
        Except.ok { st with
          events := st.events ++
            [UIEvent.criticalDialog "Images" ("Error while getting the VMs: " ++ msg)] }
      | FetchResult.ok images =>
        Except.ok { st with
          comboBoxes := st.comboBoxes.map
            (fun _ => images.map (fun vm => (vm.filename, vm))) }

/-- Delivery of the oldest outstanding HTTP response: the HTTP layer pops
the request and invokes the bound callback with the response.  The
callback itself receives no token identifying which request answered. -/
def deliverOldest (st : ImagesWizardState) (result : FetchResult) :
    Except PyErr ImagesWizardState :=
  DeviceWizard.getImagesFromServerCallback
    { st with pendingRequests := st.pendingRequests.drop 1 } result

/-- One registered image-selector control group
(`addImageSelector(radio_button, combo_box, line_edit, browser, ...)`):
the combo box contents and current index, the line edit text, and the
visibility of the combo box, line edit and browse button. -/
structure ImageGroup where
  comboItems : List ImageEntry
  comboIndex : Int
  comboVisible : Bool
  browserVisible : Bool
  lineEditVisible : Bool
  lineEditText : String
deriving DecidableEq

/-- `DeviceWizard._existingImageToggledSlot(checked, combo_box, line_edit,
browser)`: when checked, show the combo box, hide the browse button and
the line edit, and if the combo box is non-empty copy the current item's
`filename` into the line edit (subscripting a Python `None` item raises
TypeError, after the visibility changes already took effect); when
unchecked, hide the combo box, clear and show the line edit, and show the
browse button. -/
def DeviceWizard.existingImageToggledSlot (checked : Bool) (g : ImageGroup) :
    ImageGroup × Option PyErr :=
  if checked then
    let g := { g with comboVisible := true, browserVisible := false,
                      lineEditVisible := false }
    if 0 < g.comboItems.length then
      match comboItemData g.comboItems g.comboIndex with
      | some e => ({ g with lineEditText := e.filename }, none)
      | none => (g, some PyErr.typeError)
    else
      (g, none)
  else
    ({ g with comboVisible := false, lineEditText := "", lineEditVisible := true,
              browserVisible := true }, none)

/-- The server-mode radio buttons of the wizard
(`uiLocalRadioButton`, `uiRemoteRadioButton`). -/
structure RadioState where
  localChecked : Bool
  remoteChecked : Bool
deriving DecidableEq

/-- The initial browse-button visibility assignment inside
`DeviceWizard.addImageSelector` (lines 121-124): hide the browse button
when the local radio button is checked, show it otherwise. -/
def DeviceWizard.addImageSelectorInitialBrowser (r : RadioState)
    (g : ImageGroup) : ImageGroup :=
  if r.localChecked then
    { g with browserVisible := false }
  else
    { g with browserVisible := true }

/-- `DeviceWizard.addImageSelector`'s effect on the registered group: wire
the signals, set the initial browse-button visibility from the local radio
button, and finish with `_existingImageToggledSlot(True, ...)`, simulating
the existing-image option being selected. -/
def DeviceWizard.addImageSelector (r : RadioState) (g : ImageGroup) :
    ImageGroup × Option PyErr :=
  DeviceWizard.existingImageToggledSlot true
    (DeviceWizard.addImageSelectorInitialBrowser r g)

/-- `DeviceWizard._remoteServerToggledSlot(checked)`: when the remote radio
button becomes checked, enable the remote-servers group box and hide every
registered browse button; when it becomes unchecked, disable the group box
and show every registered browse button.  Returns the group-box enabled
flag and the updated registered groups. -/
def DeviceWizard.remoteServerToggledSlot (checked : Bool)
    (groups : List ImageGroup) : Bool × List ImageGroup :=
  if checked then
    (true, groups.map (fun g => { g with browserVisible := false }))
  else
    (false, groups.map (fun g => { g with browserVisible := true }))

/-- `DeviceWizard._imageListIndexChangedSlot(index, combo_box, line_edit)`:
look up `combo_box.itemData(index)`; both the truthy and the falsy branch
of the source execute `line_edit.setText(item["filename"])`, so a `None`
item (index `-1`, cleared combo box) is subscripted and raises TypeError
before any text is set. -/
def DeviceWizard.imageListIndexChangedSlot (index : Int) (g : ImageGroup) :
    ImageGroup × Option PyErr :=
  match comboItemData g.comboItems index with
  | some item => ({ g with lineEditText := item.filename }, none)
  | none => (g, some PyErr.typeError)

/-- The wizard pages relevant to validation. -/
inductive WizardPage where
  | serverPage : WizardPage
  | nameImagePage : WizardPage
  | otherPage : WizardPage
deriving DecidableEq

/-- An already-configured IOU device record from the `iou_devices` registry;
only its `name` field is consulted here. -/
structure IOUDevice where
  name : String
deriving DecidableEq

/-- The wizard state consulted and mutated by `validateCurrentPage`:
the current page, the radio buttons, the registry of remote servers
(`Servers.instance().remoteServers()`, in iteration order), the
remote-servers combo box item data and current index, `self._server`,
the name line edit, and the registry of configured IOU devices
(`self._iou_devices`, in value-iteration order). -/
structure WizardValState where
  page : WizardPage
  remoteChecked : Bool
  remoteServers : List RemoteServer
  remoteComboData : List RemoteServer
  remoteComboIndex : Int
  server : Option ServerRef
  nameText : String
  iouDevices : List IOUDevice
deriving DecidableEq

/-- The outcome of a `validateCurrentPage` call: the returned boolean, the
value of `self._server` afterwards, and the modal dialogs shown. -/
structure ValidateOut where
  ok : Bool
  server : Option ServerRef
  dialogs : List UIEvent
deriving DecidableEq

/-- `DeviceWizard.validateCurrentPage`: on the server page, a checked
remote radio button with an empty remote-server registry shows a critical
dialog and returns False without touching `self._server`; otherwise
`self._server` becomes the remote-combo current item data (remote checked)
or the local server descriptor, and True is returned.  Non-server pages
return True unchanged. -/
def DeviceWizard.validateCurrentPage (st : WizardValState) : ValidateOut :=
  if st.page = WizardPage.serverPage then
    if st.remoteChecked then
      if st.remoteServers.isEmpty then
        ⟨false, st.server,
          [UIEvent.criticalDialog "Remote server"
            "There is no remote server registered for this type of VM in preferences"]⟩
      else
        ⟨true, (comboItemData st.remoteComboData st.remoteComboIndex).map ServerRef.remote, []⟩
    else
      ⟨true, some ServerRef.localServer, []⟩
  else
    ⟨true, st.server, []⟩

/-- `IOUDeviceWizard.validateCurrentPage`: first run the base-class check
and return False if it failed; then, on the name/image page, compare the
entered name against every configured device's `name` (Python `==` on
strings: case-sensitive exact equality) and block with a critical dialog
on the first match; then repeat the base class's server-page resolution
with an IOU-specific error message. -/
def IOUDeviceWizard.validateCurrentPage (st : WizardValState) : ValidateOut :=
  let sup := DeviceWizard.validateCurrentPage st
  if sup.ok = false then
    sup
  else
    if st.page = WizardPage.nameImagePage ∧
        st.iouDevices.any (fun d => d.name == st.nameText) then
      ⟨false, sup.server,
        sup.dialogs ++ [UIEvent.criticalDialog "Name"
          (st.nameText ++ " is already used, please choose another name")]⟩
    else
      if st.page = WizardPage.serverPage then
        if st.remoteChecked then
          if st.remoteServers.isEmpty then
            ⟨false, sup.server,
              sup.dialogs ++ [UIEvent.criticalDialog "Remote server"
                "There is no remote server registered in IOS on UNIX preferences"]⟩
          else
            ⟨true,
              (comboItemData st.remoteComboData st.remoteComboIndex).map ServerRef.remote,
              sup.dialogs⟩
        else
          ⟨true, some ServerRef.localServer, sup.dialogs⟩
      else
        ⟨true, sup.server, sup.dialogs⟩

/-- Python's case-sensitive substring test `pat in text` on `str`:
the character sequence of `pat` occurs contiguously in `text`. -/
def containsSubstr (text pat : String) : Bool :=
  decide (pat.toList <:+: text.toList)

/-- `IOUDeviceWizard._imageLineEditTextChangedSlot(text)`: inspect the new
image-path text; a `"l2"` substring selects combo index 0 (L2 image), an
`"l3"` substring otherwise selects index 1 (L3 image); any other text
leaves the type combo box's current index alone.  Returns the type combo
box index after the slot runs. -/
def IOUDeviceWizard.imageLineEditTextChangedSlot (text : String)
    (typeComboIndex : Nat) : Nat :=
  if containsSubstr text "l2" then 0
  else if containsSubstr text "l3" then 1
  else typeComboIndex

/-- Modelled from the spec: the node category tags (the `Node` class is an
external collaborator of this slice); the settings assembler stores
`Node.switches` for L2 devices and `Node.routers` otherwise. -/
inductive Category where
  | routers : Category
  | switches : Category
deriving DecidableEq

/-- Helper for `osPathBasename`: scan the characters, restarting the
accumulated component at each slash, so the final accumulator holds the
characters after the last slash. -/
def basenameAux : List Char → List Char → List Char
  | [], acc => acc.reverse
  | c :: cs, acc => if c = '/' then basenameAux cs [] else basenameAux cs (c :: acc)

/-- `os.path.basename` on the POSIX paths used here: the part of the path
after the last slash. -/
def osPathBasename (path : String) : String :=
  String.mk (basenameAux path.toList [])

/-- The settings dictionary assembled by `IOUDeviceWizard.getSettings`. -/
structure DeviceSettings where
  name : String
  path : String
  image : String
  initialConfig : String
  ethernetAdapters : Nat
  serialAdapters : Nat
  defaultSymbol : String
  category : Category
  hoverSymbol : String
  server : String
deriving DecidableEq

/-- The UI state read by `IOUDeviceWizard.getSettings`: the name and image
line edits, the type combo box's current text, the three server radio
buttons (cloud is the remaining case), the load-balance checkbox, the
remote-servers combo box's displayed text, the registered remote servers,
and the results of `get_default_base_config` on the two base-config
templates (Python-falsy, i.e. empty, when the template is missing). -/
structure IOUWizardUI where
  nameText : String
  imageText : String
  typeComboText : String
  localChecked : Bool
  remoteChecked : Bool
  loadBalanceChecked : Bool
  remoteServersComboText : String
  servers : List RemoteServer
  l2BaseConfig : String
  l3BaseConfig : String
deriving DecidableEq

/-- Modelled from the spec: iterating the `Servers` singleton (the
`Servers` class is outside this slice) yields the registered remote
servers, so `next(iter(Servers.instance()))` is the first-iterated
registered remote server and raises StopIteration when none is
registered ("pick an arbitrary (implementation: first-iterated)
registered remote server"). -/
def serversFirst (servers : List RemoteServer) : Except PyErr RemoteServer :=
  match servers with
  | [] => Except.error PyErr.stopIteration
  | s :: _ => Except.ok s

/-- `IOUDeviceWizard.getSettings`: read the image path; from the type combo
box text derive the initial config, symbols, category and adapter counts
(L2: 4 Ethernet / 0 serial, switches, multilayer-switch symbols; anything
else: 2/2, routers, router symbols); resolve the server field (local →
"local"; remote with load balance → first-iterated remote server as
"host:port"; remote without → the remote combo's text; otherwise →
"cloud"); assemble the settings record. -/
def IOUDeviceWizard.getSettings (ui : IOUWizardUI) :
    Except PyErr DeviceSettings :=
  let path := ui.imageText
  let tuple :=
    if ui.typeComboText == "L2 image" then
      let initialConfig := if ui.l2BaseConfig == "" then "" else ui.l2BaseConfig
      (initialConfig, ":/symbols/multilayer_switch.normal.svg",
        ":/symbols/multilayer_switch.selected.svg", Category.switches, 4, 0)
    else
      let initialConfig := if ui.l3BaseConfig == "" then "" else ui.l3BaseConfig
      (initialConfig, ":/symbols/router.normal.svg",
        ":/symbols/router.selected.svg", Category.routers, 2, 2)
  match tuple with
  | (initialConfig, defaultSymbol, hoverSymbol, category, ethernetAdapters,
      serialAdapters) =>
    let server? : Except PyErr String :=
      if ui.localChecked then
        Except.ok "local"
      else if ui.remoteChecked then
        if ui.loadBalanceChecked then
          match serversFirst ui.servers with
          | Except.error e => Except.error e
          | Except.ok s => Except.ok (s.host ++ ":" ++ toString s.port)
        else
          Except.ok ui.remoteServersComboText
      else
        Except.ok "cloud"
    match server? with
    | Except.error e => Except.error e
    | Except.ok server =>
      Except.ok
        { name := ui.nameText
          path := path
          image := osPathBasename path
          initialConfig := initialConfig
          ethernetAdapters := ethernetAdapters
          serialAdapters := serialAdapters
          defaultSymbol := defaultSymbol
          category := category
          hoverSymbol := hoverSymbol
          server := server }

deriving instance DecidableEq for Except

/-- C1: refuted on the code — `loadImagesList` called twice before either
request resolves leaves two requests in flight, and the first request's
late completion is not ignored: the callback consults only
`self._image_list_progress_dialog` (now the second call's dialog, not
canceled), so it accepts the second dialog and repopulates every
registered image combo box from the stale first result; the second
completion then finds the field `None` and raises AttributeError.  This
contradicts the spec's single-flight supersession invariant at a concrete
two-call scenario. -/
theorem c1_staleFetchCompletionMutatesWidgets :
    let st0 : ImagesWizardState := ⟨0, none, [], [[]], []⟩
    let st2 := DeviceWizard.loadImagesList
      (DeviceWizard.loadImagesList st0 "/iou/vms") "/iou/vms"
    let entry : ImageEntry := ⟨"a.bin", []⟩
    st2.pendingRequests.length = 2 ∧
    deliverOldest st2 (FetchResult.ok [entry]) =
      Except.ok ⟨2, none, [(1, "/iou/vms")], [[("a.bin", entry)]],
        [UIEvent.progressShown 0, UIEvent.progressRejected 0,
         UIEvent.progressShown 1, UIEvent.progressAccepted 1]⟩ ∧
    ([[("a.bin", entry)]] : List (List (String × ImageEntry))) ≠ st2.comboBoxes ∧
    deliverOldest
      ⟨2, none, [(1, "/iou/vms")], [[("a.bin", entry)]],
        [UIEvent.progressShown 0, UIEvent.progressRejected 0,
         UIEvent.progressShown 1, UIEvent.progressAccepted 1]⟩
      (FetchResult.ok [entry]) = Except.error PyErr.attributeError := by
  refine ⟨by decide, by decide, by decide, by decide⟩

/-- C6: for every delivered completion with a stored progress dialog, a
canceled dialog makes the callback return with no event emitted and no
widget changed (only the stored dialog reference is cleared), and a
non-canceled erroneous completion emits exactly the accept of the dialog
and a critical "Images" dialog carrying the server-supplied message,
leaving every registered combo box unchanged. -/
theorem c6_callbackCancelAndErrorBranches (st : ImagesWizardState)
    (d : ProgressDialog) (r : FetchResult) (h : st.progressDialog = some d) :
    (d.canceled = true →
      DeviceWizard.getImagesFromServerCallback st r =
        Except.ok { st with progressDialog := none }) ∧
    (∀ msg, d.canceled = false → r = FetchResult.err msg →
      DeviceWizard.getImagesFromServerCallback st r =
        Except.ok { st with
          progressDialog := none
          events := st.events ++ [UIEvent.progressAccepted d.id,
            UIEvent.criticalDialog "Images" ("Error while getting the VMs: " ++ msg)] }) := by
  constructor
  · intro hc
    simp [DeviceWizard.getImagesFromServerCallback, h, hc]
  · intro msg hc hr
    subst hr
    simp [DeviceWizard.getImagesFromServerCallback, h, hc]

/-- C6 witness: the cancel branch and the error branch at concrete states. -/
theorem c6_callbackCancelAndErrorBranches_witness :
    DeviceWizard.getImagesFromServerCallback
      ⟨1, some ⟨0, true⟩, [], [[("z", ⟨"z", []⟩)]], []⟩ (FetchResult.ok [⟨"a.bin", []⟩]) =
      Except.ok ⟨1, none, [], [[("z", ⟨"z", []⟩)]], []⟩ ∧
    DeviceWizard.getImagesFromServerCallback
      ⟨1, some ⟨0, false⟩, [], [[("z", ⟨"z", []⟩)]], []⟩ (FetchResult.err "boom") =
      Except.ok ⟨1, none, [], [[("z", ⟨"z", []⟩)]],
        [UIEvent.progressAccepted 0,
         UIEvent.criticalDialog "Images" "Error while getting the VMs: boom"]⟩ :=
  ⟨(c6_callbackCancelAndErrorBranches
      ⟨1, some ⟨0, true⟩, [], [[("z", ⟨"z", []⟩)]], []⟩ ⟨0, true⟩
      (FetchResult.ok [⟨"a.bin", []⟩]) rfl).1 rfl,
   (c6_callbackCancelAndErrorBranches
      ⟨1, some ⟨0, false⟩, [], [[("z", ⟨"z", []⟩)]], []⟩ ⟨0, false⟩
      (FetchResult.err "boom") rfl).2 "boom" rfl rfl⟩

/-- C7: a successful, non-canceled completion replaces the contents of
every registered image combo box by exactly one entry per returned record,
in the returned order, display text the record's `filename` and item data
the full record; moreover the repopulated contents have the same length as
the result list and agree with it position by position. -/
theorem c7_successRepopulatesCombos (st : ImagesWizardState)
    (d : ProgressDialog) (images : List ImageEntry)
    (h : st.progressDialog = some d) (hc : d.canceled = false) :
    DeviceWizard.getImagesFromServerCallback st (FetchResult.ok images) =
      Except.ok { st with
        progressDialog := none
        events := st.events ++ [UIEvent.progressAccepted d.id]
        comboBoxes := st.comboBoxes.map
          (fun _ => images.map (fun vm => (vm.filename, vm))) } ∧
    (images.map (fun vm => (vm.filename, vm))).length = images.length ∧
    ∀ i : Nat, (images.map (fun vm => (vm.filename, vm)))[i]? =
      images[i]?.map (fun vm => (vm.filename, vm)) := by
  refine ⟨?_, List.length_map _ _, fun i => List.getElem?_map _ _ _⟩
  simp [DeviceWizard.getImagesFromServerCallback, h, hc]

/-- C7 witness: a two-record success result repopulates a registered combo
box that previously held a stale entry. -/
theorem c7_successRepopulatesCombos_witness :
    DeviceWizard.getImagesFromServerCallback
      ⟨1, some ⟨0, false⟩, [], [[("z", ⟨"z", []⟩)]], []⟩
      (FetchResult.ok [⟨"a.bin", []⟩, ⟨"b.bin", [("arch", "x86")]⟩]) =
      Except.ok ⟨1, none, [],
        [[("a.bin", ⟨"a.bin", []⟩), ("b.bin", ⟨"b.bin", [("arch", "x86")]⟩)]],
        [UIEvent.progressAccepted 0]⟩ :=
  (c7_successRepopulatesCombos
    ⟨1, some ⟨0, false⟩, [], [[("z", ⟨"z", []⟩)]], []⟩ ⟨0, false⟩
    [⟨"a.bin", []⟩, ⟨"b.bin", [("arch", "x86")]⟩] rfl rfl).1

/-- C2: server resolution in `getSettings` — local checked gives the fixed
"local" token; remote checked with load balance gives the first-iterated
registered remote server formatted "host:port"; remote checked without
load balance gives the remote-servers combo box text; neither local nor
remote checked gives the fixed "cloud" token. -/
theorem c2_getSettingsServerResolution (ui : IOUWizardUI) :
    (ui.localChecked = true →
      (IOUDeviceWizard.getSettings ui).map DeviceSettings.server = Except.ok "local") ∧
    (ui.localChecked = false → ui.remoteChecked = true → ui.loadBalanceChecked = true →
      ∀ s rest, ui.servers = s :: rest →
        (IOUDeviceWizard.getSettings ui).map DeviceSettings.server =
          Except.ok (s.host ++ ":" ++ toString s.port)) ∧
    (ui.localChecked = false → ui.remoteChecked = true → ui.loadBalanceChecked = false →
      (IOUDeviceWizard.getSettings ui).map DeviceSettings.server =
        Except.ok ui.remoteServersComboText) ∧
    (ui.localChecked = false → ui.remoteChecked = false →
      (IOUDeviceWizard.getSettings ui).map DeviceSettings.server = Except.ok "cloud") := by
  refine ⟨?_, ?_, ?_, ?_⟩
  · intro h1
    cases hT : (ui.typeComboText == "L2 image") <;>
      simp [IOUDeviceWizard.getSettings, Except.map, hT, h1]
  · intro h1 h2 h3 s rest hs
    cases hT : (ui.typeComboText == "L2 image") <;>
      simp [IOUDeviceWizard.getSettings, serversFirst, Except.map, hT, h1, h2, h3, hs]
  · intro h1 h2 h3
    cases hT : (ui.typeComboText == "L2 image") <;>
      simp [IOUDeviceWizard.getSettings, Except.map, hT, h1, h2, h3]
  · intro h1 h2
    cases hT : (ui.typeComboText == "L2 image") <;>
      simp [IOUDeviceWizard.getSettings, Except.map, hT, h1, h2]

/-- C2 witness: the four server-resolution branches at concrete UI states. -/
theorem c2_getSettingsServerResolution_witness :
    (IOUDeviceWizard.getSettings
        ⟨"R1", "a.bin", "L2 image", true, false, false, "", [], "", ""⟩).map
      DeviceSettings.server = Except.ok "local" ∧
    (IOUDeviceWizard.getSettings
        ⟨"R1", "a.bin", "L3 image", false, true, true, "x",
          [⟨"h", 3080⟩, ⟨"k", 3081⟩], "", ""⟩).map
      DeviceSettings.server =
      Except.ok ((⟨"h", 3080⟩ : RemoteServer).host ++ ":" ++
        toString (⟨"h", 3080⟩ : RemoteServer).port) ∧
    (IOUDeviceWizard.getSettings
        ⟨"R1", "a.bin", "L3 image", false, true, false, "h:3080",
          [⟨"h", 3080⟩], "", ""⟩).map
      DeviceSettings.server = Except.ok "h:3080" ∧
    (IOUDeviceWizard.getSettings
        ⟨"R1", "a.bin", "L2 image", false, false, false, "", [], "", ""⟩).map
      DeviceSettings.server = Except.ok "cloud" :=
  ⟨(c2_getSettingsServerResolution
      ⟨"R1", "a.bin", "L2 image", true, false, false, "", [], "", ""⟩).1 rfl,
   (c2_getSettingsServerResolution
      ⟨"R1", "a.bin", "L3 image", false, true, true, "x",
        [⟨"h", 3080⟩, ⟨"k", 3081⟩], "", ""⟩).2.1 rfl rfl rfl
      ⟨"h", 3080⟩ [⟨"k", 3081⟩] rfl,
   (c2_getSettingsServerResolution
      ⟨"R1", "a.bin", "L3 image", false, true, false, "h:3080",
        [⟨"h", 3080⟩], "", ""⟩).2.2.1 rfl rfl rfl,
   (c2_getSettingsServerResolution
      ⟨"R1", "a.bin", "L2 image", false, false, false, "", [], "", ""⟩).2.2.2 rfl rfl⟩

/-- C5: whenever `getSettings` produces a settings record, the adapter
counts, category and symbols are the fixed tuple of the current type-combo
value — "L2 image" gives 4 Ethernet / 0 serial adapters, category
switches and the multilayer-switch symbols; any other value gives 2/2,
category routers and the router symbols — for every value of every other
field. -/
theorem c5_typeDeterminedTuple (ui : IOUWizardUI) (s : DeviceSettings)
    (h : IOUDeviceWizard.getSettings ui = Except.ok s) :
    (ui.typeComboText = "L2 image" →
      s.ethernetAdapters = 4 ∧ s.serialAdapters = 0 ∧ s.category = Category.switches ∧
      s.defaultSymbol = ":/symbols/multilayer_switch.normal.svg" ∧
      s.hoverSymbol = ":/symbols/multilayer_switch.selected.svg") ∧
    (ui.typeComboText ≠ "L2 image" →
      s.ethernetAdapters = 2 ∧ s.serialAdapters = 2 ∧ s.category = Category.routers ∧
      s.defaultSymbol = ":/symbols/router.normal.svg" ∧
      s.hoverSymbol = ":/symbols/router.selected.svg") := by
  constructor
  · intro hT
    have hT2 : (ui.typeComboText == "L2 image") = true := by simp [hT]
    simp only [IOUDeviceWizard.getSettings, hT2] at h
    split at h <;> simp_all
    · cases h; simp
  · intro hT
    have hT2 : (ui.typeComboText == "L2 image") = false := by simp [hT]
    simp only [IOUDeviceWizard.getSettings, hT2] at h
    split at h <;> simp_all
    · cases h; simp

/-- C5 witness: the L2 tuple and the L3 tuple on the spec's end-to-end
example settings, built by `getSettings` at concrete UI states. -/
theorem c5_typeDeterminedTuple_witness :
    ((⟨"R1", "vios-l2.bin", "vios-l2.bin", "", 4, 0,
        ":/symbols/multilayer_switch.normal.svg", Category.switches,
        ":/symbols/multilayer_switch.selected.svg", "local"⟩ : DeviceSettings).ethernetAdapters = 4 ∧
      (⟨"R1", "vios-l2.bin", "vios-l2.bin", "", 4, 0,
        ":/symbols/multilayer_switch.normal.svg", Category.switches,
        ":/symbols/multilayer_switch.selected.svg", "local"⟩ : DeviceSettings).serialAdapters = 0 ∧
      (⟨"R1", "vios-l2.bin", "vios-l2.bin", "", 4, 0,
        ":/symbols/multilayer_switch.normal.svg", Category.switches,
        ":/symbols/multilayer_switch.selected.svg", "local"⟩ : DeviceSettings).category = Category.switches ∧
      (⟨"R1", "vios-l2.bin", "vios-l2.bin", "", 4, 0,
        ":/symbols/multilayer_switch.normal.svg", Category.switches,
        ":/symbols/multilayer_switch.selected.svg", "local"⟩ : DeviceSettings).defaultSymbol =
        ":/symbols/multilayer_switch.normal.svg" ∧
      (⟨"R1", "vios-l2.bin", "vios-l2.bin", "", 4, 0,
        ":/symbols/multilayer_switch.normal.svg", Category.switches,
        ":/symbols/multilayer_switch.selected.svg", "local"⟩ : DeviceSettings).hoverSymbol =
        ":/symbols/multilayer_switch.selected.svg") ∧
    ((⟨"R2", "vios-l3.bin", "vios-l3.bin", "", 2, 2,
        ":/symbols/router.normal.svg", Category.routers,
        ":/symbols/router.selected.svg", "cloud"⟩ : DeviceSettings).ethernetAdapters = 2 ∧
      (⟨"R2", "vios-l3.bin", "vios-l3.bin", "", 2, 2,
        ":/symbols/router.normal.svg", Category.routers,
        ":/symbols/router.selected.svg", "cloud"⟩ : DeviceSettings).serialAdapters = 2 ∧
      (⟨"R2", "vios-l3.bin", "vios-l3.bin", "", 2, 2,
        ":/symbols/router.normal.svg", Category.routers,
        ":/symbols/router.selected.svg", "cloud"⟩ : DeviceSettings).category = Category.routers ∧
      (⟨"R2", "vios-l3.bin", "vios-l3.bin", "", 2, 2,
        ":/symbols/router.normal.svg", Category.routers,
        ":/symbols/router.selected.svg", "cloud"⟩ : DeviceSettings).defaultSymbol =
        ":/symbols/router.normal.svg" ∧
      (⟨"R2", "vios-l3.bin", "vios-l3.bin", "", 2, 2,
        ":/symbols/router.normal.svg", Category.routers,
        ":/symbols/router.selected.svg", "cloud"⟩ : DeviceSettings).hoverSymbol =
        ":/symbols/router.selected.svg") :=
  ⟨(c5_typeDeterminedTuple
      ⟨"R1", "vios-l2.bin", "L2 image", true, false, false, "", [], "", ""⟩
      ⟨"R1", "vios-l2.bin", "vios-l2.bin", "", 4, 0,
        ":/symbols/multilayer_switch.normal.svg", Category.switches,
        ":/symbols/multilayer_switch.selected.svg", "local"⟩ (by decide)).1 rfl,
   (c5_typeDeterminedTuple
      ⟨"R2", "vios-l3.bin", "L3 image", false, false, false, "", [], "", ""⟩
      ⟨"R2", "vios-l3.bin", "vios-l3.bin", "", 2, 2,
        ":/symbols/router.normal.svg", Category.routers,
        ":/symbols/router.selected.svg", "cloud"⟩ (by decide)).2 (by decide)⟩

/-- C3 counterexample: the claim fails when the text contains both "l2"
and "l3" — "l2l3" contains the substring "l3", yet the slot selects combo
index 0 (L2), not index 1, because the "l3" test sits on the `elif`
branch. -/
theorem c3_counterexample :
    containsSubstr "l2l3" "l3" = true ∧
    IOUDeviceWizard.imageLineEditTextChangedSlot "l2l3" 7 = 0 ∧
    IOUDeviceWizard.imageLineEditTextChangedSlot "l2l3" 7 ≠ 1 := by
  refine ⟨by decide, by decide, by decide⟩

/-- C3 amended: a text containing the substring "l2" selects combo index 0;
a text not containing "l2" but containing "l3" selects combo index 1; a
text containing neither leaves the index unchanged; the test is a
case-sensitive contiguous-substring search (it succeeds exactly when the
text literally decomposes around the pattern). -/
theorem c3_textHeuristicAmended (text : String) (idx : Nat) :
    (containsSubstr text "l2" = true →
      IOUDeviceWizard.imageLineEditTextChangedSlot text idx = 0) ∧
    (containsSubstr text "l2" = false → containsSubstr text "l3" = true →
      IOUDeviceWizard.imageLineEditTextChangedSlot text idx = 1) ∧
    (containsSubstr text "l2" = false → containsSubstr text "l3" = false →
      IOUDeviceWizard.imageLineEditTextChangedSlot text idx = idx) ∧
    (∀ pat : String, containsSubstr text pat = true ↔
      ∃ pre post : String, text = pre ++ pat ++ post) := by
  refine ⟨?_, ?_, ?_, ?_⟩
  · intro h
    simp [IOUDeviceWizard.imageLineEditTextChangedSlot, h]
  · intro h2 h3
    simp [IOUDeviceWizard.imageLineEditTextChangedSlot, h2, h3]
  · intro h2 h3
    simp [IOUDeviceWizard.imageLineEditTextChangedSlot, h2, h3]
  · intro pat
    unfold containsSubstr
    rw [decide_eq_true_iff]
    constructor
    · rintro ⟨s, t, hst⟩
      refine ⟨⟨s⟩, ⟨t⟩, String.ext ?_⟩
      exact Eq.symm (by simpa using hst)
    · rintro ⟨pre, post, hpp⟩
      refine ⟨pre.data, post.data, ?_⟩
      have h2 := congrArg String.data hpp
      exact Eq.symm (by simpa using h2)

/-- C3 witness: "l2" selects index 0, "l3" (without "l2") selects index 1,
and the uppercase "L2"/"L3" path matches neither, the search being
case-sensitive, so the index is unchanged. -/
theorem c3_textHeuristicAmended_witness :
    IOUDeviceWizard.imageLineEditTextChangedSlot "vios-l2.bin" 1 = 0 ∧
    IOUDeviceWizard.imageLineEditTextChangedSlot "vios-l3.bin" 0 = 1 ∧
    IOUDeviceWizard.imageLineEditTextChangedSlot "IOS-L2.BIN" 1 = 1 :=
  ⟨(c3_textHeuristicAmended "vios-l2.bin" 1).1 (by decide),
   (c3_textHeuristicAmended "vios-l3.bin" 0).2.1 (by decide) (by decide),
   (c3_textHeuristicAmended "IOS-L2.BIN" 1).2.2.1 (by decide) (by decide)⟩

/-- C4: on the server page, a checked remote radio button with an empty
remote-server registry makes `validateCurrentPage` return False, show a
critical dialog and leave `self._server` unchanged; with a non-empty
registry it stores the remote-combo current item as the server and returns
True with no dialog; with remote unchecked it stores the local server
descriptor and returns True with no dialog. -/
theorem c4_serverPageValidation (st : WizardValState)
    (h : st.page = WizardPage.serverPage) :
    (st.remoteChecked = true → st.remoteServers = [] →
      DeviceWizard.validateCurrentPage st =
        ⟨false, st.server,
          [UIEvent.criticalDialog "Remote server"
            "There is no remote server registered for this type of VM in preferences"]⟩) ∧
    (st.remoteChecked = true → st.remoteServers ≠ [] →
      DeviceWizard.validateCurrentPage st =
        ⟨true, (comboItemData st.remoteComboData st.remoteComboIndex).map ServerRef.remote,
          []⟩) ∧
    (st.remoteChecked = false →
      DeviceWizard.validateCurrentPage st = ⟨true, some ServerRef.localServer, []⟩) := by
  refine ⟨?_, ?_, ?_⟩
  · intro h1 h2
    simp [DeviceWizard.validateCurrentPage, h, h1, h2]
  · intro h1 h2
    simp [DeviceWizard.validateCurrentPage, h, h1, h2]
  · intro h1
    simp [DeviceWizard.validateCurrentPage, h, h1]

/-- C4 witness: the three branches at concrete wizard states — blocked with
the registry empty and the stored server untouched, the chosen remote
server stored, and the local descriptor stored. -/
theorem c4_serverPageValidation_witness :
    DeviceWizard.validateCurrentPage
      ⟨WizardPage.serverPage, true, [], [], 0, some ServerRef.localServer, "R1", []⟩ =
      ⟨false, some ServerRef.localServer,
        [UIEvent.criticalDialog "Remote server"
          "There is no remote server registered for this type of VM in preferences"]⟩ ∧
    DeviceWizard.validateCurrentPage
      ⟨WizardPage.serverPage, true, [⟨"h", 3080⟩], [⟨"h", 3080⟩], 0, none, "R1", []⟩ =
      ⟨true, (comboItemData [(⟨"h", 3080⟩ : RemoteServer)] 0).map ServerRef.remote, []⟩ ∧
    DeviceWizard.validateCurrentPage
      ⟨WizardPage.serverPage, false, [], [], 0, none, "R1", []⟩ =
      ⟨true, some ServerRef.localServer, []⟩ :=
  ⟨(c4_serverPageValidation
      ⟨WizardPage.serverPage, true, [], [], 0, some ServerRef.localServer, "R1", []⟩
      rfl).1 rfl rfl,
   (c4_serverPageValidation
      ⟨WizardPage.serverPage, true, [⟨"h", 3080⟩], [⟨"h", 3080⟩], 0, none, "R1", []⟩
      rfl).2.1 rfl (by decide),
   (c4_serverPageValidation
      ⟨WizardPage.serverPage, false, [], [], 0, none, "R1", []⟩ rfl).2.2 rfl⟩

/-- C8: on the name/image page, if some configured device's name equals the
entered name (case-sensitive exact String equality), the IOU
`validateCurrentPage` returns False, shows the duplicate-name critical
dialog and leaves `self._server` unchanged; if every configured device's
name differs from the entered name, it returns True with no dialog. -/
theorem c8_nameUniqueness (st : WizardValState)
    (h : st.page = WizardPage.nameImagePage) :
    ((∃ d ∈ st.iouDevices, d.name = st.nameText) →
      IOUDeviceWizard.validateCurrentPage st =
        ⟨false, st.server,
          [UIEvent.criticalDialog "Name"
            (st.nameText ++ " is already used, please choose another name")]⟩) ∧
    ((∀ d ∈ st.iouDevices, d.name ≠ st.nameText) →
      IOUDeviceWizard.validateCurrentPage st = ⟨true, st.server, []⟩) := by
  constructor
  · intro hdup
    have hany : st.iouDevices.any (fun d => d.name == st.nameText) = true := by
      rw [List.any_eq_true]
      obtain ⟨d, hd, hdn⟩ := hdup
      exact ⟨d, hd, by simpa using hdn⟩
    simp [IOUDeviceWizard.validateCurrentPage, DeviceWizard.validateCurrentPage, h, hany]
  · intro hnone
    have hany : st.iouDevices.any (fun d => d.name == st.nameText) = false := by
      rw [List.any_eq_false]
      intro d hd
      simpa using hnone d hd
    simp [IOUDeviceWizard.validateCurrentPage, DeviceWizard.validateCurrentPage, h, hany]

/-- C8 witness: with devices named "R1" and "R2" configured, entering "R1"
is blocked with the duplicate-name dialog and entering "R3" is permitted
(the spec's example). -/
theorem c8_nameUniqueness_witness :
    IOUDeviceWizard.validateCurrentPage
      ⟨WizardPage.nameImagePage, false, [], [], 0, none, "R1", [⟨"R1"⟩, ⟨"R2"⟩]⟩ =
      ⟨false, none,
        [UIEvent.criticalDialog "Name" "R1 is already used, please choose another name"]⟩ ∧
    IOUDeviceWizard.validateCurrentPage
      ⟨WizardPage.nameImagePage, false, [], [], 0, none, "R3", [⟨"R1"⟩, ⟨"R2"⟩]⟩ =
      ⟨true, none, []⟩ :=
  ⟨(c8_nameUniqueness
      ⟨WizardPage.nameImagePage, false, [], [], 0, none, "R1", [⟨"R1"⟩, ⟨"R2"⟩]⟩
      rfl).1 ⟨⟨"R1"⟩, by decide, rfl⟩,
   (c8_nameUniqueness
      ⟨WizardPage.nameImagePage, false, [], [], 0, none, "R3", [⟨"R1"⟩, ⟨"R2"⟩]⟩
      rfl).2 (by decide)⟩

/-- C9 counterexample: with the local radio button checked and the remote
radio button not selected, the browse button is hidden (not shown)
immediately after `addImageSelector` registers a group — the registration
first hides the button because local mode is checked (lines 121-122,
opposite to the claimed correspondence) and then ends with
`_existingImageToggledSlot(True, ...)`, which hides it in every case. -/
theorem c9_counterexample :
    (RadioState.mk true false).remoteChecked = false ∧
    (DeviceWizard.addImageSelector ⟨true, false⟩
      ⟨[], 0, false, true, true, ""⟩).1.browserVisible = false := by
  refine ⟨rfl, by decide⟩

/-- C9 amended: immediately after `addImageSelector` registers a group the
browse button is hidden regardless of the server mode (the registration
ends by simulating the existing-image option, which hides it); the
initial assignment preceding that simulation hides the button when the
local radio button is checked and shows it otherwise; and each remote
toggle enables the remote-servers group box exactly when checked and sets
the browse button of every registered group to hidden exactly when the
remote radio button is checked. -/
theorem c9_browseVisibilityAmended (r : RadioState) (g : ImageGroup)
    (checked : Bool) (groups : List ImageGroup) :
    (DeviceWizard.addImageSelector r g).1.browserVisible = false ∧
    (DeviceWizard.addImageSelectorInitialBrowser r g).browserVisible = !r.localChecked ∧
    (DeviceWizard.remoteServerToggledSlot checked groups).1 = checked ∧
    (∀ g2 ∈ (DeviceWizard.remoteServerToggledSlot checked groups).2,
      g2.browserVisible = !checked) := by
  have hhide : ∀ g3 : ImageGroup,
      (DeviceWizard.existingImageToggledSlot true g3).1.browserVisible = false := by
    intro g3
    unfold DeviceWizard.existingImageToggledSlot
    rw [if_pos rfl]
    dsimp only
    split
    · cases comboItemData g3.comboItems g3.comboIndex <;> rfl
    · rfl
  refine ⟨hhide _, ?_, ?_, ?_⟩
  · unfold DeviceWizard.addImageSelectorInitialBrowser
    cases h : r.localChecked <;> simp [h]
  · cases checked <;> simp [DeviceWizard.remoteServerToggledSlot]
  · intro g2 hg2
    cases checked <;>
      simp only [DeviceWizard.remoteServerToggledSlot, Bool.false_eq_true,
        ite_true, ite_false, List.mem_map] at hg2 <;>
      obtain ⟨g3, -, rfl⟩ := hg2 <;> rfl

/-- C9 witness: the browse button is hidden right after registering a group
with remote mode selected, and a remote-toggle to checked leaves a
registered group's browse button hidden. -/
theorem c9_browseVisibilityAmended_witness :
    (DeviceWizard.addImageSelector ⟨false, true⟩
      ⟨[], 0, false, true, true, ""⟩).1.browserVisible = false ∧
    (⟨[], 0, false, false, true, ""⟩ : ImageGroup).browserVisible = !true :=
  ⟨(c9_browseVisibilityAmended ⟨false, true⟩ ⟨[], 0, false, true, true, ""⟩ true
      [⟨[], 0, false, true, true, ""⟩]).1,
   (c9_browseVisibilityAmended ⟨false, true⟩ ⟨[], 0, false, true, true, ""⟩ true
      [⟨[], 0, false, true, true, ""⟩]).2.2.2
      ⟨[], 0, false, false, true, ""⟩ (by decide)⟩

/-- C10: refuted on the code — the combo-box index-change handler is not
total: at index -1 on a cleared combo box `itemData` yields Python `None`,
and since the falsy branch also subscripts `item["filename"]`, the handler
raises TypeError instead of completing; on a valid index it does set the
line edit to the selected record's filename. -/
theorem c10_indexChangedNotTotal :
    comboItemData ([] : List ImageEntry) (-1) = none ∧
    DeviceWizard.imageListIndexChangedSlot (-1) ⟨[], 0, true, true, true, "old"⟩ =
      (⟨[], 0, true, true, true, "old"⟩, some PyErr.typeError) ∧
    DeviceWizard.imageListIndexChangedSlot 0
      ⟨[⟨"a.bin", []⟩], 0, true, true, true, "old"⟩ =
      (⟨[⟨"a.bin", []⟩], 0, true, true, true, "a.bin"⟩, none) := by
  refine ⟨by decide, by decide, by decide⟩
